import Mathlib

/-!
Shallow embedding of the two CLI method scripts of isglobal-brge/dsImaging-HPC:

* `src/environment/methods/scripts/lungmask/main.py`     (namespace `Lungmask`)
* `src/environment/methods/scripts/pyradiomics/main.py`  (namespace `Pyrad`)

External collaborators (SimpleITK, lungmask/LMInferer, pyradiomics, the
filesystem, base64) are modelled as oracles bundled in a world structure;
the scripts' own control flow, validation, parameter handling, envelope
construction and temporary-file management are translated line by line.
Python exceptions raised by collaborators are data (`Except`), and Python
`try/finally` / `except` blocks become the corresponding case analysis.
-/

namespace DsImaging

/-- JSON values as produced by Python's `json.load`.  Numbers are modelled
as rationals (the claims never depend on int/float distinctions). -/
inductive Json where
  | null
  | bool (b : Bool)
  | num (q : Rat)
  | str (s : String)
  | arr (elems : List Json)
  | obj (fields : List (String × Json))

/-- First-match association lookup; JSON objects come out of `json.load`
as Python dicts, whose keys are unique, so first-match equals dict lookup. -/
def jLookup (fields : List (String × Json)) (key : String) : Option Json :=
  match fields with
  | [] => none
  | (k, v) :: rest => if k = key then some v else jLookup rest key

/-- Top-level field access on a JSON value (none on non-objects). -/
def Json.getKey (j : Json) (key : String) : Option Json :=
  match j with
  | .obj fields => jLookup fields key
  | _ => none

/-- Two-level field access, for reaching into the response envelopes. -/
def jGet2 (j : Json) (k1 k2 : String) : Option Json :=
  match j.getKey k1 with
  | some x => x.getKey k2
  | none => none

/-- Remove a top-level field of a JSON object (used to compare envelopes
up to their `parameters_applied` echo). -/
def Json.removeKey (j : Json) (key : String) : Json :=
  match j with
  | .obj fields => .obj (fields.filter (fun kv => kv.1 != key))
  | other => other

/-- Python truthiness of a JSON value (`if x:`). -/
def pythonTruthy : Json → Bool
  | .null => false
  | .bool b => b
  | .num q => q != 0
  | .str s => s != ""
  | .arr xs => !xs.isEmpty
  | .obj fs => !fs.isEmpty

/-- Python `type(x).__name__` for a JSON-decoded value.  JSON numbers decode
to `int` or `float`; the model reports `int` (the claims only need that the
name is neither `bool` nor `str`). -/
def pyTypeName : Json → String
  | .null => "NoneType"
  | .bool _ => "bool"
  | .num _ => "int"
  | .str _ => "str"
  | .arr _ => "list"
  | .obj _ => "dict"

/-- Membership test `key in j` as Python evaluates it on a decoded JSON
value: dict → key lookup, list → element equality (only `str` elements can
equal a string), str → substring test; numbers/booleans/None raise
`TypeError` (modelled as `.error ()`). -/
def pyContainsKey (key : String) : Json → Except Unit Bool
  | .obj fs => .ok (jLookup fs key).isSome
  | .arr xs => .ok (xs.any (fun x => match x with | .str s => s = key | _ => false))
  | .str s => .ok ((s.splitOn key).length ≥ 2)
  | _ => .error ()

/-- Subscript `j[key]` with a string key: only dicts support it; list/str
subscripts with a string raise `TypeError` (modelled as `.error ()`). -/
def pySubscript (key : String) : Json → Except Unit (Option Json)
  | .obj fs => .ok (jLookup fs key)
  | _ => .error ()

/-- Substring test, modelling Python's `"CUDA" in str(e)`. -/
def strContains (s pat : String) : Bool := (s.splitOn pat).length ≥ 2

/-! ## Filesystem and JSON loading -/

/-- Result of the `os.path` / `os.access` probes made by
`validate_file_exists` for one path. -/
structure FileStat where
  fsExists : Bool
  isFile : Bool
  readable : Bool

/-- `validate_file_exists(file_path, file_description)` — identical in both
scripts (lungmask lines 82-96, pyradiomics lines 34-48). -/
def validate_file_exists (stat : String → FileStat) (path desc : String) :
    Bool × Option String :=
  if path = "" then
    (false, some (desc ++ " path is empty"))
  else if !(stat path).fsExists then
    (false, some (desc ++ " does not exist: " ++ path))
  else if !(stat path).isFile then
    (false, some (desc ++ " is not a file: " ++ path))
  else if !(stat path).readable then
    (false, some (desc ++ " is not readable: " ++ path))
  else
    (true, none)

/-- How `json.load` can fail: a `json.JSONDecodeError` carrying the parser
diagnostic `str(e)`, or any other exception (I/O, encoding). -/
inductive JsonLoadErr where
  | decodeErr (msg : String)
  | ioErr (msg : String)

/-- `load_json_file(file_path, file_description)` — identical in both
scripts (lungmask lines 99-107, pyradiomics lines 51-59).  `parse` is the
oracle for `json.load` on the file at a given path. -/
def load_json_file (parse : String → Except JsonLoadErr Json)
    (path desc : String) : Except String Json :=
  match parse path with
  | .ok v => .ok v
  | .error (.decodeErr e) => .error ("Invalid JSON in " ++ desc ++ ": " ++ e)
  | .error (.ioErr e) => .error ("Error reading " ++ desc ++ ": " ++ e)

/-! ## SimpleITK images -/

/-- The slice of a `SimpleITK.Image` the scripts observe: `GetSize()`,
`GetDimension()`, `GetSpacing()`, `GetOrigin()`, `GetDirection()`. -/
structure SitkImage where
  size : List Nat
  dimension : Nat
  spacing : List Rat
  origin : List Rat
  direction : List Rat
  deriving DecidableEq

namespace Lungmask

/-- `read_image_file(image_path)` of the lungmask script (lines 110-135):
validates the path, reads via the `readImg` oracle (a raised SimpleITK
exception is `.error`), rejects an empty first or second axis, and rejects
any non-3D volume.  Python would raise `IndexError` on a size tuple shorter
than 2; `getD` makes that case land in the same "empty" rejection (the
outer `except` also turns it into an error in Python). -/
def read_image_file (stat : String → FileStat)
    (readImg : String → Except String SitkImage) (image_path : String) :
    Except String SitkImage :=
  match validate_file_exists stat image_path "Input image" with
  | (false, e) => .error (e.getD "")
  | (true, _) =>
    match readImg image_path with
    | .error e =>
        .error ("Failed to read image file '" ++ image_path ++ "': " ++ e ++
          ". Supported formats: NIfTI (.nii, .nii.gz), DICOM, NRRD, MHA, MHD, and other SimpleITK-supported formats.")
    | .ok image =>
      if image.size.getD 0 0 = 0 ∨ image.size.getD 1 0 = 0 then
        .error ("Image appears to be empty (size: " ++ toString image.size ++ ")")
      else if image.dimension ≠ 3 then
        .error ("Expected 3D image, but got " ++ toString image.dimension ++
          "D image. Size: " ++ toString image.size)
      else
        .ok image

end Lungmask

namespace Pyrad

/-- `read_image_file(image_path)` of the pyradiomics script (lines 62-80):
same as the lungmask reader except that it performs NO dimension check —
only existence/readability and non-emptiness of the first two axes. -/
def read_image_file (stat : String → FileStat)
    (readImg : String → Except String SitkImage) (image_path : String) :
    Except String SitkImage :=
  match validate_file_exists stat image_path "Image file" with
  | (false, e) => .error (e.getD "")
  | (true, _) =>
    match readImg image_path with
    | .error e =>
        .error ("Failed to read image file '" ++ image_path ++ "': " ++ e)
    | .ok image =>
      if image.size.getD 0 0 = 0 ∨ image.size.getD 1 0 = 0 then
        .error ("Image appears to be empty (size: " ++ toString image.size ++ ")")
      else
        .ok image

end Pyrad

/-! ## Lungmask script: world, segmentation call, main -/

/-- What `LMInferer(...)`/`inferer.apply(image)` can do: raise a
`RuntimeError`, raise any other exception, return `None`, return a numpy
array (the payload is the size of the `sitk.GetImageFromArray` result),
or return a `SimpleITK.Image`. -/
inductive InferResult where
  | raiseRuntime (msg : String)
  | raiseOther (msg : String)
  | retNone
  | ndarray (resultSize : List Nat)
  | sitkImg (img : SitkImage)

/-- The environment of one lungmask invocation: CLI words, filesystem
probes, `json.load` per path, `sitk.ReadImage` per path, the inference
oracle (given model name, the library `force_cpu` flag and the value of
`CUDA_VISIBLE_DEVICES` visible during the call), the statistics computation
on the mask, the initial `CUDA_VISIBLE_DEVICES`, the write-then-read of the
mask giving its byte length (`.error` = any exception in the encode block),
and the base64 text of the written mask. -/
structure LungWorld where
  argv : List String
  stat : String → FileStat
  parse : String → Except JsonLoadErr Json
  readImg : String → Except String SitkImage
  infer : String → Bool → Option String → SitkImage → InferResult
  statsOf : SitkImage → Except String Json
  cudaEnv : Option String
  writeMask : SitkImage → Except String Nat
  encode : SitkImage → String

/-- Result of `apply_lungmask`: the returned mask or error message, the
`CUDA_VISIBLE_DEVICES` value the inference call ran under (`none` when the
call was never made), and the value of the variable after the function
returns. -/
structure ApplyResult where
  result : Except String SitkImage
  inferEnv : Option (Option String)
  envAfter : Option String

def validModels : List String := ["R231", "LTRCLobes", "R231CovidWeb"]

namespace Lungmask

/-- Lines 205-227 of the lungmask script: turn the raw inference outcome
into a mask image or an error.  Exceptions raised by the library are
remapped (`RuntimeError` mentioning CUDA/GPU gets the CPU-fallback hint); a
numpy array is wrapped with `GetImageFromArray` and, like a returned
`SimpleITK.Image`, gets the input image's spacing/origin/direction restored;
finally the mask size must equal the image size. -/
def finishInfer (image : SitkImage) (r : InferResult) : Except String SitkImage :=
  match r with
  | .raiseRuntime e =>
      if strContains e "CUDA" || strContains e "GPU" then
        .error ("GPU error: " ++ e ++ ". Try setting force_cpu=true parameter.")
      else
        .error ("Runtime error during lungmask application: " ++ e)
  | .raiseOther e => .error ("Error applying lungmask: " ++ e)
  | .retNone => .error "Lungmask returned None (no mask generated)"
  | .ndarray sz =>
      if sz = image.size then
        .ok ⟨sz, sz.length, image.spacing, image.origin, image.direction⟩
      else .error ("Mask size " ++ toString sz ++ " does not match image size " ++
        toString image.size)
  | .sitkImg m0 =>
      if m0.size = image.size then
        .ok { m0 with
              spacing := image.spacing
              origin := image.origin
              direction := image.direction }
      else .error ("Mask size " ++ toString m0.size ++ " does not match image size " ++
        toString image.size)

/-- `apply_lungmask(image, model_name, force_cpu)` (lines 138-232).  The
argument is a `SitkImage` by type, so the `isinstance` guard always passes.
When `force_cpu` is true the script saves `CUDA_VISIBLE_DEVICES`, sets it to
the empty string for the call, and a `try/finally` restores the saved value
(re-setting it, or popping it when it was unset) on both the normal and the
exceptional path — exceptions from the library are data in `InferResult`,
so the `finally` semantics is the unconditional `envAfter := w.cudaEnv`. -/
def apply_lungmask (w : LungWorld) (image : SitkImage) (model_name : String)
    (force_cpu : Bool) : ApplyResult :=
  if !(validModels.contains model_name) then
    ⟨.error ("Invalid model name '" ++ model_name ++
      "'. Valid options: R231, LTRCLobes, R231CovidWeb"), none, w.cudaEnv⟩
  else if force_cpu then
    ⟨finishInfer image (w.infer model_name true (some "") image), some (some ""), w.cudaEnv⟩
  else
    ⟨finishInfer image (w.infer model_name false w.cudaEnv image), some w.cudaEnv, w.cudaEnv⟩

end Lungmask

/-- Observable outcome of one lungmask invocation: process exit code, the
single JSON object printed on stdout, the warnings printed on stderr by the
encode block (the forwarded library log noise, also sent to stderr, is not
modelled), and the final value of `CUDA_VISIBLE_DEVICES`. -/
structure LungOutcome where
  exitCode : Nat
  stdout : Json
  stderr : List String
  envFinal : Option String

/-- The error envelope `{"status": "error", "message": msg}`. -/
def errEnv (msg : String) : Json :=
  .obj [("status", .str "error"), ("message", .str msg)]

/-- The top-level `except Exception` envelope (lines 482-492 / 407-416).
The only exception reaching it in the modelled fragment is the
`AttributeError`/`TypeError` from using a non-dict where a dict is needed;
the interpolated `str(e)` text and the traceback are abstracted. -/
def unexpectedEnv (etype : String) : Json :=
  .obj [("status", .str "error"), ("message", .str "Unexpected error"),
        ("error_type", .str etype), ("traceback", .str "<traceback>")]

def natListJson (l : List Nat) : Json := .arr (l.map (fun n => .num (n : Rat)))

def ratListJson (l : List Rat) : Json := .arr (l.map .num)

def optStrJson : Option String → Json
  | none => .null
  | some s => .str s

namespace Lungmask

/-- The 50 MB ceiling of line 410: `max_size_bytes = 50 * 1024 * 1024`. -/
def maxSizeBytes : Nat := 50 * 1024 * 1024

/-- Output of the base64-encode block (lines 387-423). -/
structure EncodeOut where
  maskB64 : Option String
  sizeBytes : Nat
  warnings : List String

/-- Lines 387-423: write the mask to an auto-deleting temporary file, read
it back, and base64-encode it only if `mask_size_bytes * 1.4 <
max_size_bytes`; otherwise leave `mask_base64 = None` and warn on stderr.
The float comparison `n * 1.4 < max` is modelled exactly as the rational
comparison `7 * n < 5 * max`, which agrees with the IEEE-double evaluation
for every byte count below 2^53 (the products differ from the exact value
by less than 10^-2 while `7 * n` is an integer, so no integer n can change
sides).  Any exception inside the block (`.error` from `writeMask`) is
non-fatal and yields the could-not-encode warning; in that case
`mask_size_bytes` keeps its initial value 0.  The warning texts' size
interpolation is elided. -/
def encodeBlock (w : LungWorld) (mask : SitkImage) : EncodeOut :=
  match w.writeMask mask with
  | .error e => ⟨none, 0, ["Warning: Could not encode mask as base64: " ++ e]⟩
  | .ok n =>
    if 7 * n < 5 * maxSizeBytes then
      ⟨some (w.encode mask), n, []⟩
    else
      ⟨none, n, ["Warning: Mask too large for base64 encoding"]⟩

/-- The success envelope of lines 432-461, with the fields in the order the
Python dict literal writes them (`json.dumps` serializes `None` as `null`,
so an over-sized mask still contributes a `mask_base64` key). -/
def successEnv (model_name : String) (force_cpu : Bool) (input_file : String)
    (image mask : SitkImage) (stats metadata params : Json)
    (maskB64 : Option String) (sizeBytes : Nat) : Json :=
  .obj [
    ("status", .str "success"),
    ("message", .str ("Successfully generated lung mask using model '" ++ model_name ++ "'")),
    ("data", .obj [
      ("mask_base64", optStrJson maskB64),
      ("mask_size_bytes", .num (sizeBytes : Rat)),
      ("mask_format", .str "nii.gz"),
      ("statistics", stats),
      ("mask_metadata", .obj [
        ("size", natListJson mask.size),
        ("spacing_mm", ratListJson mask.spacing),
        ("origin_mm", ratListJson mask.origin),
        ("direction", ratListJson mask.direction)])]),
    ("metadata", .obj [
      ("method", .str "lungmask"),
      ("model", .str model_name),
      ("force_cpu", .bool force_cpu),
      ("input_file", .str input_file),
      ("input_image_size", natListJson image.size),
      ("input_image_spacing", ratListJson image.spacing),
      ("input_image_origin", ratListJson image.origin),
      ("input_image_direction", ratListJson image.direction),
      ("original_metadata", metadata)]),
    ("parameters_applied", params)]

/-- Lines 338-348: `force_cpu` type handling — a native boolean is kept, a
string is lowercased and compared against `("true", "1", "yes")`, and any
other type is a fatal type error naming the field and the received type. -/
def coerceForceCpu : Json → Except String Bool
  | .bool b => .ok b
  | .str s => .ok (["true", "1", "yes"].contains s.toLower)
  | other => .error ("Parameter 'force_cpu' must be a boolean, got " ++ pyTypeName other)

/-- Lines 350-472: the pipeline from reading the input image onward, given
the already-resolved parameters.  Statistics failure (line 376-379) and
metadata parse failure (line 381-385) are both non-fatal: the empty dict is
substituted.  The success path always prints exactly one JSON line and the
process later exits 0 via `sys.exit(0 if success else 1)`. -/
def mainSeg (w : LungWorld) (input_file metadata_file : String) (params : Json)
    (model_name : String) (force_cpu : Bool) : LungOutcome :=
  match read_image_file w.stat w.readImg input_file with
  | .error e => ⟨1, errEnv e, [], w.cudaEnv⟩
  | .ok image =>
    let ar := apply_lungmask w image model_name force_cpu
    match ar.result with
    | .error e => ⟨1, errEnv e, [], ar.envAfter⟩
    | .ok mask =>
      let stats := match w.statsOf mask with
        | .ok s => s
        | .error _ => .obj []
      let metadata := match load_json_file w.parse metadata_file "metadata file" with
        | .ok m => m
        | .error _ => .obj []
      let enc := encodeBlock w mask
      ⟨0, successEnv model_name force_cpu input_file image mask stats metadata params
          enc.maskB64 enc.sizeBytes, enc.warnings, ar.envAfter⟩

/-- Lines 325-348: parameter extraction.  `params.get` on a non-dict raises
`AttributeError`, caught only by the top-level handler; `model` must be a
string; `force_cpu` goes through `coerceForceCpu`. -/
def mainWithParams (w : LungWorld) (input_file metadata_file : String)
    (params : Json) : LungOutcome :=
  match params with
  | .obj fields =>
    match (jLookup fields "model").getD (.str "R231") with
    | .str model_name =>
      match coerceForceCpu ((jLookup fields "force_cpu").getD (.bool false)) with
      | .error msg => ⟨1, errEnv msg, [], w.cudaEnv⟩
      | .ok force_cpu => mainSeg w input_file metadata_file params model_name force_cpu
    | other =>
      ⟨1, errEnv ("Parameter 'model' must be a string, got " ++ pyTypeName other),
       [], w.cudaEnv⟩
  | _ => ⟨1, unexpectedEnv "AttributeError", [], w.cudaEnv⟩

/-- `main()` of the lungmask script (lines 269-492): usage check, the three
path validations, fatal parameters load, then the segmentation pipeline. -/
def main (w : LungWorld) : LungOutcome :=
  if w.argv.length < 4 then
    ⟨1, errEnv "Usage: python3 main.py <input_file> <metadata_file> <params_file>",
     [], w.cudaEnv⟩
  else
    let input_file := w.argv.getD 1 ""
    let metadata_file := w.argv.getD 2 ""
    let params_file := w.argv.getD 3 ""
    match validate_file_exists w.stat input_file "Input file" with
    | (false, e) => ⟨1, errEnv (e.getD ""), [], w.cudaEnv⟩
    | (true, _) =>
      match validate_file_exists w.stat metadata_file "Metadata file" with
      | (false, e) => ⟨1, errEnv (e.getD ""), [], w.cudaEnv⟩
      | (true, _) =>
        match validate_file_exists w.stat params_file "Parameters file" with
        | (false, e) => ⟨1, errEnv (e.getD ""), [], w.cudaEnv⟩
        | (true, _) =>
          match load_json_file w.parse params_file "parameters file" with
          | .error e => ⟨1, errEnv e, [], w.cudaEnv⟩
          | .ok params => mainWithParams w input_file metadata_file params

end Lungmask

/-! ## Pyradiomics script: world, mask resolution, main -/

/-- The organized extraction result assembled by
`extract_radiomics_features` (pyradiomics lines 99-148).  The
feature-organization loop (class-name inference from key prefixes, float
normalization) is bundled into the opaque extractor oracle, since no claim
concerns it. -/
structure FeaturesResult where
  features : Json
  featureClasses : Json
  featureCount : Nat
  allFeatures : Json

/-- The settings dict handed to the extractor (pyradiomics lines 329-344):
the raw `binWidth` and `normalize` parameter values, `normalizeScale`
(`None` when `normalize` is falsy), and the enabled feature-class flags. -/
structure ExtractSettings where
  binWidth : Json
  normalize : Json
  normalizeScale : Json
  enable : List String

/-- The environment of one pyradiomics invocation.  `b64decodeOk s` tells
whether `base64.b64decode(s)` (and the subsequent temporary-file write)
succeeds; `tmpName` is the path `tempfile.NamedTemporaryFile(delete=False)`
would hand out (at most one temporary file is created per run, since the
inline-base64 branch and the sniffing branch are mutually exclusive);
`readFirstBytes` models `open(p,'rb').read(100)` and `readTextUtf8` models
the text-mode UTF-8 read; `extractF` is `extractor.execute` (a raised
exception is `.error str(e)`). -/
structure PyWorld where
  argv : List String
  stat : String → FileStat
  parse : String → Except JsonLoadErr Json
  readImg : String → Except String SitkImage
  b64decodeOk : String → Bool
  tmpName : String
  readFirstBytes : String → Except String (List Nat)
  readTextUtf8 : String → Except String String
  extractF : String → String → ExtractSettings → Except String FeaturesResult

/-- Observable outcome of one pyradiomics invocation: exit code, the single
JSON object on stdout, and the temporary files created during the run that
still exist when the process exits (`os.unlink` in the success-path cleanup
is modelled as succeeding; its failure is swallowed by a bare `except`). -/
structure PyOutcome where
  exitCode : Nat
  stdout : Json
  leaked : List String

namespace Pyrad

/-- `decode_mask_from_base64(mask_base64)` (lines 83-96): decode and write
to a `NamedTemporaryFile(delete=False)` — NOT auto-deleting.  A non-string
argument makes `b64decode` raise `TypeError`, caught by the same `except`.
The interpolated `str(e)` of the failure message is abstracted. -/
def decode_mask_from_base64 (w : PyWorld) (mask_base64 : Json) :
    Except String String :=
  match mask_base64 with
  | .str s =>
      if w.b64decodeOk s then .ok w.tmpName
      else .error "Failed to decode mask from base64: <exception>"
  | _ => .error "Failed to decode mask from base64: <exception>"

/-- Line 274: `all(c.isalnum() or c in '+/=' for c in content) and
len(content) > 100`.  `isalnum` is modelled on ASCII alphanumerics (Python's
is Unicode-aware; the difference only moves some inputs between the
"not base64-shaped" and "decode raises" branches, both of which keep the
original path). -/
def base64Shaped (content : String) : Bool :=
  content.toList.all (fun c => c.isAlphanum || c = '+' || c = '/' || c = '=') &&
    content.length > 100

/-- Lines 262-289: the base64-vs-binary sniffing heuristic applied to a
mask file discovered through the metadata.  Returns the mask path to use
and the temporary file created (if any).  Every failure — unreadable bytes,
a leading byte in the NIfTI magic list, unreadable/odd text, a non-base64
shape, a failing decode or temp write — falls through to the original path
via `except: pass`. -/
def sniffMask (w : PyWorld) (mask_path : String) : String × Option String :=
  match w.readFirstBytes mask_path with
  | .error _ => (mask_path, none)
  | .ok first_bytes =>
    match first_bytes.head? with
    | none => (mask_path, none)
    | some b0 =>
      if b0 = 0x00 ∨ b0 = 0x1E ∨ b0 = 0x5C then (mask_path, none)
      else
        match w.readTextUtf8 mask_path with
        | .error _ => (mask_path, none)
        | .ok raw =>
          let content := raw.trim
          if base64Shaped content then
            if w.b64decodeOk content then (w.tmpName, some w.tmpName)
            else (mask_path, none)
          else (mask_path, none)

def knownClasses : List String :=
  ["firstorder", "shape", "glcm", "glrlm", "glszm", "gldm", "ngtdm"]

/-- Lines 338-344: build the `settings['enable']` dict from the parsed
feature-class list (represented as the list of enabled flag names, inserted
once each in first-occurrence order). -/
def buildEnable (fcl : List String) : List String :=
  fcl.foldl (fun acc fc =>
    let l := fc.toLower
    if knownClasses.contains l then
      if acc.contains l then acc else acc ++ [l]
    else if "wavelet".isPrefixOf l then
      if acc.contains "wavelet" then acc else acc ++ ["wavelet"]
    else acc) []

/-- The success envelope of lines 364-388, fields in dict-literal order. -/
def successEnv (fr : FeaturesResult) (image mask_image : SitkImage)
    (bin_width normalize normalize_scale : Json) (fcl : List String)
    (metadata params : Json) : Json :=
  .obj [
    ("status", .str "success"),
    ("message", .str ("Successfully extracted " ++ toString fr.featureCount ++
      " radiomic features")),
    ("data", .obj [
      ("features", fr.features),
      ("feature_classes", fr.featureClasses),
      ("feature_count", .num (fr.featureCount : Rat)),
      ("all_features", fr.allFeatures)]),
    ("metadata", .obj [
      ("method", .str "pyradiomics"),
      ("image_size", natListJson image.size),
      ("image_spacing", ratListJson image.spacing),
      ("mask_size", natListJson mask_image.size),
      ("mask_spacing", ratListJson mask_image.spacing),
      ("settings", .obj [
        ("bin_width", bin_width),
        ("normalize", normalize),
        ("normalize_scale", if pythonTruthy normalize then normalize_scale else .null),
        ("feature_classes", .arr (fcl.map .str))]),
      ("original_metadata", metadata)]),
    ("parameters_applied", params)]

/-- Lines 291-397: the pipeline once a mask path (and the temp file backing
it, if one was created) is fixed: validate the mask path, read and validate
both volumes, compare sizes, build settings, extract, clean up the temp
file only after a successful extraction, and print the success envelope.
Every error exit before the cleanup leaves the created temp file behind. -/
def mainWithMask (w : PyWorld) (input_file mask_path : String)
    (temp : Option String) (params metadata : Json) (fcl : List String)
    (bin_width normalize normalize_scale : Json) : PyOutcome :=
  let leakedNow := temp.toList
  match validate_file_exists w.stat mask_path "Mask file" with
  | (false, e) => ⟨1, errEnv (e.getD ""), leakedNow⟩
  | (true, _) =>
    match read_image_file w.stat w.readImg input_file with
    | .error e => ⟨1, errEnv e, leakedNow⟩
    | .ok image =>
      match read_image_file w.stat w.readImg mask_path with
      | .error e => ⟨1, errEnv e, leakedNow⟩
      | .ok mask_image =>
        if image.size ≠ mask_image.size then
          ⟨1, errEnv ("Image size " ++ toString image.size ++
            " does not match mask size " ++ toString mask_image.size), leakedNow⟩
        else
          let settings : ExtractSettings :=
            ⟨bin_width, normalize,
             if pythonTruthy normalize then normalize_scale else .null,
             buildEnable fcl⟩
          match w.extractF input_file mask_path settings with
          | .error e =>
              ⟨1, errEnv ("Error extracting radiomic features: " ++ e), leakedNow⟩
          | .ok fr =>
              ⟨0, successEnv fr image mask_image bin_width normalize normalize_scale
                  fcl metadata params, []⟩

/-- Line 232: `if mask_base64 and mask_base64 != "null" and mask_base64 != ""`
— truthiness plus the two string comparisons (which can only be true of
strings, so for non-strings the test reduces to truthiness). -/
def maskB64Provided : Json → Bool
  | .str s => s != "" && s != "null"
  | v => pythonTruthy v

/-- Lines 244-252: look the mask reference up under `metadata['files']`,
with Python's `in`/`[]` semantics on arbitrary decoded values (`.error ()`
is a raised `TypeError`). -/
def metaMaskLookup (metadata : Json) : Except Unit (Option Json) :=
  if pythonTruthy metadata then
    match pyContainsKey "files" metadata with
    | .error _ => .error ()
    | .ok false => .ok none
    | .ok true =>
      match pySubscript "files" metadata with
      | .error _ => .error ()
      | .ok files? =>
        let files := files?.getD .null
        match pyContainsKey "mask" files with
        | .error _ => .error ()
        | .ok false => .ok none
        | .ok true =>
          match pySubscript "mask" files with
          | .error _ => .error ()
          | .ok v => .ok v
  else .ok none

/-- Lines 227-289: determine the mask path.  A truthy `mask_base64` value
other than the literal strings `"null"` and `""` is decoded inline (fatal
on failure); otherwise the mask is looked up through `metaMaskLookup` — a
raised `TypeError` lands in the top-level handler — and a missing or
non-existing path is the fatal "Mask not provided" error; an existing path
goes through the sniffing heuristic.  A truthy non-string path value
reaches `os.path.exists`, which raises `TypeError` for list/dict/None
payloads (integer payloads, which Python would treat as file descriptors,
are modelled the same way and out of the claims' domain). -/
def resolveMask (w : PyWorld) (input_file : String) (params metadata : Json)
    (mask_base64 : Json) (fcl : List String)
    (bin_width normalize normalize_scale : Json) : PyOutcome :=
  if maskB64Provided mask_base64 then
    match decode_mask_from_base64 w mask_base64 with
    | .error e => ⟨1, errEnv e, []⟩
    | .ok tmp =>
        mainWithMask w input_file tmp (some tmp) params metadata fcl
          bin_width normalize normalize_scale
  else
    match metaMaskLookup metadata with
    | .error _ => ⟨1, unexpectedEnv "TypeError", []⟩
    | .ok mask_v =>
      let mv := mask_v.getD .null
      if !(pythonTruthy mv) then
        ⟨1, errEnv "Mask not provided. Provide either 'mask_base64' parameter or 'mask' file input.", []⟩
      else
        match mv with
        | .str s =>
          if !(w.stat s).fsExists then
            ⟨1, errEnv "Mask not provided. Provide either 'mask_base64' parameter or 'mask' file input.", []⟩
          else
            let sniffed := sniffMask w s
            mainWithMask w input_file sniffed.1 sniffed.2 params metadata fcl
              bin_width normalize normalize_scale
        | _ => ⟨1, unexpectedEnv "TypeError", []⟩

/-- Lines 217-260 entry: parameter extraction with defaults.  `params.get`
on a non-dict raises `AttributeError`; `feature_classes` must be a string
(`.split` on anything else raises `AttributeError`); a missing
`mask_base64` and an explicit JSON `null` both come back as Python `None`,
modelled by the `.null` default. -/
def mainWithParams (w : PyWorld) (input_file : String) (params metadata : Json) :
    PyOutcome :=
  match params with
  | .obj fields =>
    let mask_base64 := (jLookup fields "mask_base64").getD .null
    let feature_classes_v := (jLookup fields "feature_classes").getD
      (.str "firstorder,shape,glcm,glrlm,glszm,gldm,ngtdm")
    let bin_width := (jLookup fields "bin_width").getD (.num 25)
    let normalize := (jLookup fields "normalize").getD (.bool false)
    let normalize_scale := (jLookup fields "normalize_scale").getD (.num 100)
    match feature_classes_v with
    | .str fcs =>
      let fcl := (fcs.splitOn ",").map (fun fc => fc.trim)
      resolveMask w input_file params metadata mask_base64 fcl
        bin_width normalize normalize_scale
    | _ => ⟨1, unexpectedEnv "AttributeError", []⟩
  | _ => ⟨1, unexpectedEnv "AttributeError", []⟩

/-- `main()` of the pyradiomics script (lines 151-416): usage check, the
three path validations, fatal parameters load, then — unlike the lungmask
script — a FATAL metadata load (lines 207-215), then the pipeline. -/
def main (w : PyWorld) : PyOutcome :=
  if w.argv.length < 4 then
    ⟨1, errEnv "Usage: python3 main.py <input_file> <metadata_file> <params_file>", []⟩
  else
    let input_file := w.argv.getD 1 ""
    let metadata_file := w.argv.getD 2 ""
    let params_file := w.argv.getD 3 ""
    match validate_file_exists w.stat input_file "Input file" with
    | (false, e) => ⟨1, errEnv (e.getD ""), []⟩
    | (true, _) =>
      match validate_file_exists w.stat metadata_file "Metadata file" with
      | (false, e) => ⟨1, errEnv (e.getD ""), []⟩
      | (true, _) =>
        match validate_file_exists w.stat params_file "Parameters file" with
        | (false, e) => ⟨1, errEnv (e.getD ""), []⟩
        | (true, _) =>
          match load_json_file w.parse params_file "parameters file" with
          | .error e => ⟨1, errEnv e, []⟩
          | .ok params =>
            match load_json_file w.parse metadata_file "metadata file" with
            | .error e => ⟨1, errEnv e, []⟩
            | .ok metadata => mainWithParams w input_file params metadata

end Pyrad

/-! ## Concrete worlds used by witnesses and counterexamples -/

/-- A 4×4×2 3D volume with unit spacing. -/
def img3 : SitkImage := ⟨[4, 4, 2], 3, [1, 1, 1], [0, 0, 0], [1, 0, 0, 0, 1, 0, 0, 0, 1]⟩

/-- A 5×5 2D volume. -/
def img2 : SitkImage := ⟨[5, 5], 2, [1, 1], [0, 0], [1, 0, 0, 1]⟩

def statAllOk : String → FileStat := fun _ => ⟨true, true, true⟩

/-- A lungmask invocation whose parameters file parses to `{}` and whose
metadata file is malformed JSON; everything downstream succeeds. -/
def lungW0 : LungWorld where
  argv := ["main.py", "in.nii", "meta.json", "params.json"]
  stat := statAllOk
  parse := fun p =>
    if p = "params.json" then .ok (.obj [])
    else .error (.decodeErr "Expecting value: line 1 column 1 (char 0)")
  readImg := fun _ => .ok img3
  infer := fun _ _ _ img => .ndarray img.size
  statsOf := fun _ => .ok (.obj [])
  cudaEnv := some "0"
  writeMask := fun _ => .ok 1000
  encode := fun _ => "QUJD"

/-- Same lungmask invocation but the mask written back weighs 40 MiB, so
the estimate `1.4 * size` exceeds the 50 MB ceiling. -/
def lungW4 : LungWorld :=
  { lungW0 with
    parse := fun p =>
      if p = "params.json" then .ok (.obj []) else .ok (.obj [("k", .num 1)])
    writeMask := fun _ => .ok 41943040 }

/-- A pyradiomics invocation whose parameters file parses to `{}` and whose
metadata file is malformed JSON. -/
def pyW1 : PyWorld where
  argv := ["main.py", "in.nii", "meta.json", "params.json"]
  stat := statAllOk
  parse := fun p =>
    if p = "params.json" then .ok (.obj [])
    else .error (.decodeErr "Expecting value: line 1 column 1 (char 0)")
  readImg := fun _ => .ok img3
  b64decodeOk := fun _ => true
  tmpName := "/tmp/tmpabc.nii.gz"
  readFirstBytes := fun _ => .ok [103]
  readTextUtf8 := fun _ => .ok ""
  extractF := fun _ _ _ => .ok ⟨.obj [], .arr [], 0, .obj []⟩

/-- A pyradiomics invocation with an inline base64 mask that decodes fine,
but where feature extraction itself raises. -/
def pyW3 : PyWorld :=
  { pyW1 with
    parse := fun p =>
      if p = "params.json" then .ok (.obj [("mask_base64", .str "QUJD")])
      else .ok (.obj [])
    extractF := fun _ _ _ => .error "boom" }

/-- A pyradiomics invocation that succeeds end to end with the boolean
parameter `normalize` set to the number 5. -/
def pyW6 : PyWorld :=
  { pyW1 with
    parse := fun p =>
      if p = "params.json" then
        .ok (.obj [("mask_base64", .str "QUJD"), ("normalize", .num 5)])
      else .ok (.obj []) }

example : (Lungmask.main lungW0).exitCode = 0 := by rfl
example : (Lungmask.main lungW4).exitCode = 0 := by rfl
example : jGet2 (Lungmask.main lungW4).stdout "data" "mask_base64" = some .null := by rfl
example : (Pyrad.main pyW1).exitCode = 1 := by rfl
example : (Pyrad.main pyW3).leaked = ["/tmp/tmpabc.nii.gz"] := by rfl
example : (Pyrad.main pyW6).exitCode = 0 := by rfl

/-! ## Claim C2: reader invariants -/

/-- C2 counterexample: the pyradiomics `read_image_file` accepts a 2D
volume — the claim that the reader of EITHER script rejects any non-3D
volume is false for the feature-extraction script. -/
theorem C2_counterexample :
    Pyrad.read_image_file statAllOk (fun _ => .ok img2) "img.png" = .ok img2 ∧
    img2.dimension ≠ 3 := by
  exact ⟨rfl, by decide⟩

/-- C2 (amended): the segmentation script's reader returns only volumes
that are non-empty in the first two axes and of dimension exactly 3, and
rejects a non-3D readable volume with a descriptive error; the
feature-extraction script's reader checks only non-emptiness of the first
two axes and accepts volumes of any dimension. -/
theorem C2_reader_invariants :
    (∀ stat readImg path img,
        Lungmask.read_image_file stat readImg path = .ok img →
        img.size.getD 0 0 ≠ 0 ∧ img.size.getD 1 0 ≠ 0 ∧ img.dimension = 3) ∧
    (∀ (stat : String → FileStat) readImg path (img : SitkImage),
        readImg path = .ok img →
        (validate_file_exists stat path "Input image").1 = true →
        img.size.getD 0 0 ≠ 0 → img.size.getD 1 0 ≠ 0 → img.dimension ≠ 3 →
        Lungmask.read_image_file stat readImg path =
          .error ("Expected 3D image, but got " ++ toString img.dimension ++
            "D image. Size: " ++ toString img.size)) ∧
    (∀ stat readImg path img,
        Pyrad.read_image_file stat readImg path = .ok img →
        img.size.getD 0 0 ≠ 0 ∧ img.size.getD 1 0 ≠ 0) := by
  refine ⟨?_, ?_, ?_⟩
  · intro stat readImg path img h
    unfold Lungmask.read_image_file at h
    split at h
    · exact Except.noConfusion h
    · split at h
      · exact Except.noConfusion h
      · rename_i image heq
        split at h
        · exact Except.noConfusion h
        · split at h
          · exact Except.noConfusion h
          · rename_i hne hdim
            obtain rfl : image = img := Except.ok.inj h
            push_neg at hne
            exact ⟨hne.1, hne.2, by omega⟩
  · intro stat readImg path img hread hval h0 h1 hdim
    unfold Lungmask.read_image_file
    split
    · rename_i e hv
      rw [hv] at hval
      exact absurd hval (by simp)
    · simp only [hread]
      rw [if_neg (by push_neg; exact ⟨h0, h1⟩), if_pos hdim]
  · intro stat readImg path img h
    unfold Pyrad.read_image_file at h
    split at h
    · exact Except.noConfusion h
    · split at h
      · exact Except.noConfusion h
      · rename_i image heq
        split at h
        · exact Except.noConfusion h
        · rename_i hne
          obtain rfl : image = img := Except.ok.inj h
          push_neg at hne
          exact ⟨hne.1, hne.2⟩

/-- C2 witness: the amended theorem applied at a concrete 3D read. -/
theorem C2_witness :
    Lungmask.read_image_file statAllOk (fun _ => .ok img3) "in.nii" = .ok img3 ∧
    img3.dimension = 3 ∧
    Lungmask.read_image_file statAllOk (fun _ => .ok img2) "in.png" =
      .error ("Expected 3D image, but got " ++ toString img2.dimension ++
        "D image. Size: " ++ toString img2.size) := by
  refine ⟨by rfl, ?_, ?_⟩
  · exact (C2_reader_invariants.1 statAllOk (fun _ => .ok img3) "in.nii" img3 (by rfl)).2.2
  · exact C2_reader_invariants.2.1 statAllOk (fun _ => .ok img2) "in.png" img2 rfl
      (by rfl) (by decide) (by decide) (by decide)

/-! ## Helper lemmas about the segmentation call -/

/-- Every mask `finishInfer` returns has the size of the input image. -/
theorem finishInfer_ok_size (image : SitkImage) (r : InferResult) (mask : SitkImage)
    (h : Lungmask.finishInfer image r = .ok mask) : mask.size = image.size := by
  cases r with
  | raiseRuntime e =>
      simp only [Lungmask.finishInfer] at h
      split at h <;> exact Except.noConfusion h
  | raiseOther e =>
      simp only [Lungmask.finishInfer] at h
      exact Except.noConfusion h
  | retNone =>
      simp only [Lungmask.finishInfer] at h
      exact Except.noConfusion h
  | ndarray sz =>
      simp only [Lungmask.finishInfer] at h
      split at h
      · rename_i hsz
        obtain rfl := (Except.ok.inj h).symm
        exact hsz
      · exact Except.noConfusion h
  | sitkImg m0 =>
      simp only [Lungmask.finishInfer] at h
      split at h
      · rename_i hsz
        obtain rfl := (Except.ok.inj h).symm
        exact hsz
      · exact Except.noConfusion h

/-- Every mask `apply_lungmask` returns has the size of the input image. -/
theorem apply_ok_size (w : LungWorld) (image : SitkImage) (model_name : String)
    (force_cpu : Bool) (mask : SitkImage)
    (h : (Lungmask.apply_lungmask w image model_name force_cpu).result = .ok mask) :
    mask.size = image.size := by
  unfold Lungmask.apply_lungmask at h
  split at h
  · exact Except.noConfusion h
  · split at h
    · exact finishInfer_ok_size image _ mask h
    · exact finishInfer_ok_size image _ mask h

/-- `apply_lungmask` always leaves `CUDA_VISIBLE_DEVICES` as it found it. -/
theorem apply_envAfter (w : LungWorld) (image : SitkImage) (model_name : String)
    (force_cpu : Bool) :
    (Lungmask.apply_lungmask w image model_name force_cpu).envAfter = w.cudaEnv := by
  unfold Lungmask.apply_lungmask
  split
  · rfl
  · split <;> rfl

/-! ## Claim C5: mask size postcondition -/

/-- C5: a mask returned by the segmentation call has exactly the input
image's voxel grid size; a library result of a different size (whether a
bare numpy array or a geo-tagged volume) is turned into a size-mismatch
error, and an erroring segmentation call makes the invocation exit 1. -/
theorem C5_mask_size_postcondition :
    (∀ (w : LungWorld) image model_name force_cpu mask,
        (Lungmask.apply_lungmask w image model_name force_cpu).result = .ok mask →
        mask.size = image.size) ∧
    (∀ (image : SitkImage) sz, sz ≠ image.size →
        Lungmask.finishInfer image (.ndarray sz) =
          .error ("Mask size " ++ toString sz ++ " does not match image size " ++
            toString image.size)) ∧
    (∀ (image m0 : SitkImage), m0.size ≠ image.size →
        Lungmask.finishInfer image (.sitkImg m0) =
          .error ("Mask size " ++ toString m0.size ++ " does not match image size " ++
            toString image.size)) ∧
    (∀ (w : LungWorld) input_file metadata_file params model_name force_cpu image e,
        Lungmask.read_image_file w.stat w.readImg input_file = .ok image →
        (Lungmask.apply_lungmask w image model_name force_cpu).result = .error e →
        Lungmask.mainSeg w input_file metadata_file params model_name force_cpu =
          ⟨1, errEnv e, [],
            (Lungmask.apply_lungmask w image model_name force_cpu).envAfter⟩) := by
  refine ⟨apply_ok_size, ?_, ?_, ?_⟩
  · intro image sz hne
    simp only [Lungmask.finishInfer]
    rw [if_neg hne]
  · intro image m0 hne
    simp only [Lungmask.finishInfer]
    rw [if_neg hne]
  · intro w input_file metadata_file params model_name force_cpu image e hread happ
    unfold Lungmask.mainSeg
    rw [hread]
    simp only [happ]

/-- C5 witness: at a concrete world whose inference returns a mask of the
image's size, the returned mask has that size; with a mismatched array the
call errors and the script exits 1. -/
theorem C5_witness :
    img3.size = img3.size ∧
    Lungmask.finishInfer img3 (.ndarray [9, 9]) =
      .error ("Mask size " ++ toString ([9, 9] : List Nat) ++
        " does not match image size " ++ toString img3.size) := by
  constructor
  · exact C5_mask_size_postcondition.1 lungW0 img3 "R231" false
      ⟨[4, 4, 2], 3, [1, 1, 1], [0, 0, 0], [1, 0, 0, 0, 1, 0, 0, 0, 1]⟩ (by rfl)
  · exact C5_mask_size_postcondition.2.1 img3 [9, 9] (by decide)

/-! ## Claim C7: scoped CUDA_VISIBLE_DEVICES override -/

/-- C7: with `force_cpu` true the inference call runs with
`CUDA_VISIBLE_DEVICES` overridden to the empty string, and the prior value
is restored afterwards on every path (the library call's success, raising,
or the fail-fast model check); at the whole-invocation level the variable
always ends as it started. -/
theorem C7_cuda_env_scoped :
    (∀ (w : LungWorld) image model_name,
        (Lungmask.apply_lungmask w image model_name true).envAfter = w.cudaEnv ∧
        ((Lungmask.apply_lungmask w image model_name true).inferEnv ≠ none →
          (Lungmask.apply_lungmask w image model_name true).inferEnv = some (some ""))) ∧
    (∀ (w : LungWorld) image model_name,
        validModels.contains model_name = true →
        (Lungmask.apply_lungmask w image model_name true).inferEnv = some (some "")) ∧
    (∀ w : LungWorld, (Lungmask.main w).envFinal = w.cudaEnv) := by
  refine ⟨?_, ?_, ?_⟩
  · intro w image model_name
    refine ⟨apply_envAfter w image model_name true, ?_⟩
    unfold Lungmask.apply_lungmask
    split
    · intro h
      exact absurd rfl h
    · intro _
      rfl
  · intro w image model_name hm
    unfold Lungmask.apply_lungmask
    rw [if_neg (by rw [hm]; simp)]
    rfl
  · intro w
    simp only [Lungmask.main, Lungmask.mainWithParams, Lungmask.mainSeg]
    repeat' split
    all_goals first
      | rfl
      | exact apply_envAfter w _ _ _

/-- C7 witness: the scoped override at a concrete world. -/
theorem C7_witness :
    (Lungmask.apply_lungmask lungW0 img3 "R231" true).envAfter = lungW0.cudaEnv ∧
    (Lungmask.apply_lungmask lungW0 img3 "R231" true).inferEnv = some (some "") ∧
    (Lungmask.main lungW0).envFinal = lungW0.cudaEnv := by
  exact ⟨(C7_cuda_env_scoped.1 lungW0 img3 "R231").1,
    C7_cuda_env_scoped.2.1 lungW0 img3 "R231" (by decide),
    C7_cuda_env_scoped.2.2 lungW0⟩

/-! ## Claim C9: failure of the base64-sniffing heuristic is non-fatal -/

/-- C9: the sniffing heuristic only ever yields the original mask path or
the decoded temporary file, and every failure stage — unreadable leading
bytes, unreadable text, non-base64-shaped content, or a failing decode —
leaves the original mask path in use with no temporary file; no failure is
fatal. -/
theorem C9_sniff_nonfatal :
    (∀ (w : PyWorld) (p : String),
        (Pyrad.sniffMask w p).1 = p ∨ (Pyrad.sniffMask w p).1 = w.tmpName) ∧
    (∀ (w : PyWorld) (p : String) e, w.readFirstBytes p = .error e →
        Pyrad.sniffMask w p = (p, none)) ∧
    (∀ (w : PyWorld) (p : String) bs b0 e,
        w.readFirstBytes p = .ok bs → bs.head? = some b0 →
        ¬(b0 = 0x00 ∨ b0 = 0x1E ∨ b0 = 0x5C) →
        w.readTextUtf8 p = .error e →
        Pyrad.sniffMask w p = (p, none)) ∧
    (∀ (w : PyWorld) (p : String) bs b0 raw,
        w.readFirstBytes p = .ok bs → bs.head? = some b0 →
        ¬(b0 = 0x00 ∨ b0 = 0x1E ∨ b0 = 0x5C) →
        w.readTextUtf8 p = .ok raw →
        Pyrad.base64Shaped raw.trim = false →
        Pyrad.sniffMask w p = (p, none)) ∧
    (∀ (w : PyWorld) (p : String) bs b0 raw,
        w.readFirstBytes p = .ok bs → bs.head? = some b0 →
        ¬(b0 = 0x00 ∨ b0 = 0x1E ∨ b0 = 0x5C) →
        w.readTextUtf8 p = .ok raw →
        Pyrad.base64Shaped raw.trim = true →
        w.b64decodeOk raw.trim = false →
        Pyrad.sniffMask w p = (p, none)) := by
  refine ⟨?_, ?_, ?_, ?_, ?_⟩
  · intro w p
    unfold Pyrad.sniffMask
    cases hfb : w.readFirstBytes p with
    | error e => simp
    | ok bs =>
      cases hh : bs.head? with
      | none => simp [hh]
      | some b0 =>
        dsimp only
        rw [hh]
        dsimp only
        by_cases hb : b0 = 0x00 ∨ b0 = 0x1E ∨ b0 = 0x5C
        · simp [hb]
        · rw [if_neg hb]
          cases ht : w.readTextUtf8 p with
          | error e => simp [ht]
          | ok raw =>
            dsimp only
            by_cases hs : Pyrad.base64Shaped raw.trim
            · by_cases hd : w.b64decodeOk raw.trim
              · simp [hs, hd]
              · simp [hs, hd]
            · simp [hs]
  · intro w p e h
    unfold Pyrad.sniffMask
    rw [h]
  · intro w p bs b0 e h1 h2 h3 h4
    unfold Pyrad.sniffMask
    rw [h1]
    simp only [h2, h4]
    rw [if_neg h3]
  · intro w p bs b0 raw h1 h2 h3 h4 h5
    unfold Pyrad.sniffMask
    rw [h1]
    simp only [h2, h4]
    rw [if_neg h3, if_neg (by simp [h5])]
  · intro w p bs b0 raw h1 h2 h3 h4 h5 h6
    unfold Pyrad.sniffMask
    rw [h1]
    simp only [h2, h4]
    rw [if_neg h3, if_pos (by simp [h5]), if_neg (by simp [h6])]

/-- C9 witness: a mask file whose leading bytes cannot be read keeps its
path and creates no temporary file. -/
theorem C9_witness :
    Pyrad.sniffMask { pyW1 with readFirstBytes := fun _ => .error "io" } "mask.bin" =
      ("mask.bin", none) := by
  exact C9_sniff_nonfatal.2.1 { pyW1 with readFirstBytes := fun _ => .error "io" }
    "mask.bin" "io" (by rfl)

/-! ## Claim C8: mask resolution fallback and the "Mask not provided" error -/

def maskNotProvidedMsg : String :=
  "Mask not provided. Provide either 'mask_base64' parameter or 'mask' file input."

/-- A successful association lookup means the field list is non-empty. -/
theorem jLookup_ne_nil {fs : List (String × Json)} {k : String} {v : Json}
    (h : jLookup fs k = some v) : fs.isEmpty = false := by
  cases fs with
  | nil => simp [jLookup] at h
  | cons a l => rfl

theorem pythonTruthy_obj (fs : List (String × Json)) :
    pythonTruthy (.obj fs) = !fs.isEmpty := rfl

theorem pythonTruthy_null : pythonTruthy .null = false := rfl

theorem pythonTruthy_str (s : String) : pythonTruthy (.str s) = (s != "") := rfl

/-- C8: a `mask_base64` value that is missing (`None`), the empty string,
or the literal string `"null"` counts as not provided; the script then
looks the mask up under the metadata's `files` map, and every way of that
lookup producing no existing file — falsy metadata, no `files` key, no
`mask` key, a falsy `mask` value, or a path that does not exist — ends in
the fatal "Mask not provided" envelope with exit code 1. -/
theorem C8_mask_not_provided :
    (Pyrad.maskB64Provided .null = false ∧ Pyrad.maskB64Provided (.str "") = false ∧
     Pyrad.maskB64Provided (.str "null") = false) ∧
    (∀ (w : PyWorld) input_file params metadata mask_base64 fcl bw nz nsc,
      Pyrad.maskB64Provided mask_base64 = false →
      (pythonTruthy metadata = false ∨
       (∃ mf, metadata = .obj mf ∧ jLookup mf "files" = none) ∨
       (∃ mf ff, metadata = .obj mf ∧ jLookup mf "files" = some (.obj ff) ∧
          jLookup ff "mask" = none) ∨
       (∃ mf ff v, metadata = .obj mf ∧ jLookup mf "files" = some (.obj ff) ∧
          jLookup ff "mask" = some v ∧ pythonTruthy v = false) ∨
       (∃ mf ff s, metadata = .obj mf ∧ jLookup mf "files" = some (.obj ff) ∧
          jLookup ff "mask" = some (.str s) ∧ (w.stat s).fsExists = false)) →
      Pyrad.resolveMask w input_file params metadata mask_base64 fcl bw nz nsc =
        ⟨1, errEnv maskNotProvidedMsg, []⟩) := by
  refine ⟨⟨rfl, rfl, rfl⟩, ?_⟩
  intro w input_file params metadata mask_base64 fcl bw nz nsc hmb hcase
  unfold Pyrad.resolveMask
  rw [hmb]
  simp only [Bool.false_eq_true, if_false]
  rcases hcase with hf | ⟨mf, rfl, hf⟩ | ⟨mf, ff, rfl, hf, hm⟩ |
    ⟨mf, ff, v, rfl, hf, hm, hv⟩ | ⟨mf, ff, s, rfl, hf, hm, hs⟩
  · simp [Pyrad.metaMaskLookup, hf, maskNotProvidedMsg, pythonTruthy_null]
  · simp [Pyrad.metaMaskLookup, pyContainsKey, hf, maskNotProvidedMsg, pythonTruthy_obj, pythonTruthy_null]
  · have hne := jLookup_ne_nil hf
    simp [Pyrad.metaMaskLookup, pyContainsKey, pySubscript, hf, hm, hne, maskNotProvidedMsg,
      pythonTruthy_obj, pythonTruthy_null]
  · have hne := jLookup_ne_nil hf
    simp [Pyrad.metaMaskLookup, pyContainsKey, pySubscript, hf, hm, hv, hne, maskNotProvidedMsg,
      pythonTruthy_obj, pythonTruthy_null]
  · have hne := jLookup_ne_nil hf
    by_cases hvs : s = ""
    · subst hvs
      simp [Pyrad.metaMaskLookup, pyContainsKey, pySubscript, hf, hm, hs, hne, maskNotProvidedMsg,
        pythonTruthy_obj, pythonTruthy_str]
    · simp [Pyrad.metaMaskLookup, pyContainsKey, pySubscript, hf, hm, hs, hne, hvs, maskNotProvidedMsg,
        pythonTruthy_obj, pythonTruthy_str]

/-- C8 witness: a concrete invocation with no `mask_base64` and metadata
`{}` hits the "Mask not provided" error, at the resolution stage and for
the whole script (exit code 1). -/
theorem C8_witness :
    Pyrad.resolveMask pyW1 "in.nii" (.obj []) (.obj []) .null [] (.num 25)
        (.bool false) (.num 100) = ⟨1, errEnv maskNotProvidedMsg, []⟩ ∧
    (Pyrad.main { pyW1 with parse := fun _ => .ok (.obj []) }).exitCode = 1 ∧
    (Pyrad.main { pyW1 with parse := fun _ => .ok (.obj []) }).stdout.getKey
        "message" = some (.str maskNotProvidedMsg) := by
  refine ⟨?_, by rfl, by rfl⟩
  exact C8_mask_not_provided.2 pyW1 "in.nii" (.obj []) (.obj []) .null [] (.num 25)
    (.bool false) (.num 100) (by rfl) (.inl (by rfl))

/-! ## Claim C6: boolean parameter coercion -/

/-- C6 counterexample: a pyradiomics invocation whose boolean `normalize`
parameter is the number 5 runs to success (exit code 0) instead of failing
with a type error — the claim that a non-boolean non-string value for a
boolean-typed parameter of EITHER script is a fatal type error is false
for the feature-extraction script. -/
theorem C6_counterexample :
    pyW6.parse "params.json" =
      .ok (.obj [("mask_base64", .str "QUJD"), ("normalize", .num 5)]) ∧
    (Pyrad.main pyW6).exitCode = 0 ∧
    jGet2 (Pyrad.main pyW6).stdout "status" "" = none ∧
    (Pyrad.main pyW6).stdout.getKey "status" = some (.str "success") := by
  exact ⟨by rfl, by rfl, by rfl, by rfl⟩

/-- C6 (amended): in the segmentation script, `force_cpu` accepts a native
boolean as-is, coerces a string by lowercasing and comparing with
`("true", "1", "yes")`, and any other type is a fatal type error naming the
field and the received type (propagated to an exit-1 envelope by the
script); in the feature-extraction script the boolean parameter `normalize`
undergoes no type check at all — any JSON value reaches the extraction
stage, which then succeeds. -/
theorem C6_boolean_coercion :
    (∀ b, Lungmask.coerceForceCpu (.bool b) = .ok b) ∧
    (∀ s, Lungmask.coerceForceCpu (.str s) =
        .ok (["true", "1", "yes"].contains s.toLower)) ∧
    (∀ q, Lungmask.coerceForceCpu (.num q) =
        .error "Parameter 'force_cpu' must be a boolean, got int") ∧
    (Lungmask.coerceForceCpu .null =
        .error "Parameter 'force_cpu' must be a boolean, got NoneType") ∧
    (∀ (w : LungWorld) input_file metadata_file fields model_name msg,
      (jLookup fields "model").getD (.str "R231") = .str model_name →
      Lungmask.coerceForceCpu ((jLookup fields "force_cpu").getD (.bool false)) =
        .error msg →
      Lungmask.mainWithParams w input_file metadata_file (.obj fields) =
        ⟨1, errEnv msg, [], w.cudaEnv⟩) ∧
    (∀ (w : PyWorld) input_file mask_path temp params metadata fcl bw nsc
        (v : Json) fr image mask_image,
      (validate_file_exists w.stat mask_path "Mask file").1 = true →
      (∀ s, w.extractF input_file mask_path s = .ok fr) →
      Pyrad.read_image_file w.stat w.readImg input_file = .ok image →
      Pyrad.read_image_file w.stat w.readImg mask_path = .ok mask_image →
      image.size = mask_image.size →
      (Pyrad.mainWithMask w input_file mask_path temp params metadata fcl bw v
        nsc).exitCode = 0) := by
  refine ⟨fun b => rfl, fun s => rfl, fun q => rfl, rfl, ?_, ?_⟩
  · intro w input_file metadata_file fields model_name msg hmodel hcoerce
    unfold Lungmask.mainWithParams
    dsimp only
    rw [hmodel]
    dsimp only
    rw [hcoerce]
  · intro w input_file mask_path temp params metadata fcl bw nsc v fr image
      mask_image hval hext hrd1 hrd2 hsz
    unfold Pyrad.mainWithMask
    rcases hveq : validate_file_exists w.stat mask_path "Mask file" with ⟨ok1, e1⟩
    rw [hveq] at hval
    cases ok1
    · exact absurd hval (by simp)
    · dsimp only
      rw [hrd1]
      dsimp only
      rw [hrd2]
      dsimp only
      rw [if_neg (by simp [hsz])]
      rw [hext]

/-- C6 witness: the lungmask coercion at concrete inputs, including the
fatal path with `force_cpu` set to a number. -/
theorem C6_witness :
    Lungmask.coerceForceCpu (.bool true) = .ok true ∧
    Lungmask.coerceForceCpu (.num 5) =
      .error "Parameter 'force_cpu' must be a boolean, got int" ∧
    Lungmask.mainWithParams lungW0 "in.nii" "meta.json"
        (.obj [("force_cpu", .num 5)]) =
      ⟨1, errEnv "Parameter 'force_cpu' must be a boolean, got int", [],
        lungW0.cudaEnv⟩ := by
  refine ⟨C6_boolean_coercion.1 true, C6_boolean_coercion.2.2.1 5, ?_⟩
  exact C6_boolean_coercion.2.2.2.2.1 lungW0 "in.nii" "meta.json"
    [("force_cpu", .num 5)] "R231" "Parameter 'force_cpu' must be a boolean, got int"
    (by rfl) (by rfl)

/-! ## Inversion: shape of a successful run -/

/-- A lungmask invocation that exits 0 went through the whole pipeline: the
parameters file parsed, the image was read, the segmentation call returned
a mask, and the printed object is the success envelope built from those
pieces with the encode block's output. -/
theorem lung_exit0_shape (w : LungWorld) (h : (Lungmask.main w).exitCode = 0) :
    ∃ model_name force_cpu image mask stats metadata params,
      load_json_file w.parse (w.argv.getD 3 "") "parameters file" = .ok params ∧
      Lungmask.read_image_file w.stat w.readImg (w.argv.getD 1 "") = .ok image ∧
      (Lungmask.apply_lungmask w image model_name force_cpu).result = .ok mask ∧
      Lungmask.main w =
        ⟨0,
         Lungmask.successEnv model_name force_cpu (w.argv.getD 1 "") image mask stats
           metadata params (Lungmask.encodeBlock w mask).maskB64
           (Lungmask.encodeBlock w mask).sizeBytes,
         (Lungmask.encodeBlock w mask).warnings,
         (Lungmask.apply_lungmask w image model_name force_cpu).envAfter⟩ := by
  simp only [Lungmask.main, Lungmask.mainWithParams, Lungmask.mainSeg] at h
  by_cases hlen : w.argv.length < 4
  · rw [if_pos hlen] at h
    simp at h
  · rw [if_neg hlen] at h
    rcases hv1 : validate_file_exists w.stat (w.argv.getD 1 "") "Input file" with ⟨b1, s1⟩
    rw [hv1] at h
    cases b1
    · simp at h
    · dsimp only at h
      rcases hv2 : validate_file_exists w.stat (w.argv.getD 2 "") "Metadata file" with ⟨b2, s2⟩
      rw [hv2] at h
      cases b2
      · simp at h
      · dsimp only at h
        rcases hv3 : validate_file_exists w.stat (w.argv.getD 3 "") "Parameters file" with ⟨b3, s3⟩
        rw [hv3] at h
        cases b3
        · simp at h
        · dsimp only at h
          rcases hp : load_json_file w.parse (w.argv.getD 3 "") "parameters file" with ep | params
          · rw [hp] at h
            simp at h
          · rw [hp] at h
            dsimp only at h
            cases params with
            | obj fields =>
              dsimp only at h
              cases hmv : (jLookup fields "model").getD (.str "R231") with
              | str mn =>
                rw [hmv] at h
                dsimp only at h
                rcases hfc : Lungmask.coerceForceCpu
                    ((jLookup fields "force_cpu").getD (.bool false)) with msg | fc
                · rw [hfc] at h
                  simp at h
                · rw [hfc] at h
                  dsimp only at h
                  rcases hread : Lungmask.read_image_file w.stat w.readImg
                      (w.argv.getD 1 "") with e | image
                  · rw [hread] at h
                    simp at h
                  · rw [hread] at h
                    dsimp only at h
                    rcases happ : (Lungmask.apply_lungmask w image mn fc).result with e | mask
                    · rw [happ] at h
                      simp at h
                    · refine ⟨mn, fc, image, mask,
                        (match w.statsOf mask with | .ok s => s | .error _ => .obj []),
                        (match load_json_file w.parse (w.argv.getD 2 "") "metadata file" with
                          | .ok m => m | .error _ => .obj []),
                        .obj fields, rfl, rfl, happ, ?_⟩
                      simp only [Lungmask.main, Lungmask.mainWithParams, Lungmask.mainSeg]
                      rw [if_neg hlen, hv1]
                      dsimp only
                      rw [hv2]
                      dsimp only
                      rw [hv3]
                      dsimp only
                      rw [hp]
                      dsimp only
                      rw [hmv]
                      dsimp only
                      rw [hfc]
                      dsimp only
                      rw [hread]
                      dsimp only
                      rw [happ]
              | null => rw [hmv] at h; simp at h
              | bool b => rw [hmv] at h; simp at h
              | num q => rw [hmv] at h; simp at h
              | arr xs => rw [hmv] at h; simp at h
              | obj fs => rw [hmv] at h; simp at h
            | null => simp at h
            | bool b => simp at h
            | num q => simp at h
            | str s => simp at h
            | arr xs => simp at h

/-- A `mainWithMask` call that exits 0 ran the full tail of the pipeline
and printed the success envelope, cleaning up its temporary file. -/
theorem py_mwm_exit0 (w : PyWorld) (i mp : String) (temp : Option String)
    (params metadata : Json) (fcl : List String) (bw nz nsc : Json)
    (h : (Pyrad.mainWithMask w i mp temp params metadata fcl bw nz nsc).exitCode = 0) :
    ∃ fr image mask_image,
      Pyrad.mainWithMask w i mp temp params metadata fcl bw nz nsc =
        ⟨0, Pyrad.successEnv fr image mask_image bw nz nsc fcl metadata params, []⟩ := by
  simp only [Pyrad.mainWithMask] at h
  rcases hv : validate_file_exists w.stat mp "Mask file" with ⟨b1, s1⟩
  rw [hv] at h
  cases b1
  · simp at h
  · dsimp only at h
    rcases hrd1 : Pyrad.read_image_file w.stat w.readImg i with e | image
    · rw [hrd1] at h
      simp at h
    · rw [hrd1] at h
      dsimp only at h
      rcases hrd2 : Pyrad.read_image_file w.stat w.readImg mp with e | mask_image
      · rw [hrd2] at h
        simp at h
      · rw [hrd2] at h
        dsimp only at h
        by_cases hsz : image.size = mask_image.size
        · rw [if_neg (not_not_intro hsz)] at h
          rcases hex : w.extractF i mp
              ⟨bw, nz, if pythonTruthy nz then nsc else .null, Pyrad.buildEnable fcl⟩
            with e | fr
          · rw [hex] at h
            simp at h
          · refine ⟨fr, image, mask_image, ?_⟩
            simp only [Pyrad.mainWithMask]
            rw [hv]
            dsimp only
            rw [hrd1]
            dsimp only
            rw [hrd2]
            dsimp only
            rw [if_neg (not_not_intro hsz), hex]
        · rw [if_pos hsz] at h
          simp at h

/-- A `resolveMask` call that exits 0 delegated to `mainWithMask`, which
printed the success envelope. -/
theorem py_resolve_exit0 (w : PyWorld) (i : String) (params metadata mb : Json)
    (fcl : List String) (bw nz nsc : Json)
    (h : (Pyrad.resolveMask w i params metadata mb fcl bw nz nsc).exitCode = 0) :
    ∃ fr image mask_image,
      Pyrad.resolveMask w i params metadata mb fcl bw nz nsc =
        ⟨0, Pyrad.successEnv fr image mask_image bw nz nsc fcl metadata params, []⟩ := by
  simp only [Pyrad.resolveMask] at h ⊢
  by_cases hmb : Pyrad.maskB64Provided mb = true
  · rw [if_pos hmb] at h ⊢
    rcases hdec : Pyrad.decode_mask_from_base64 w mb with e | tmp
    · rw [hdec] at h
      simp at h
    · rw [hdec] at h
      (try dsimp only at h); (try dsimp only)
      exact py_mwm_exit0 w i tmp (some tmp) params metadata fcl bw nz nsc h
  · rw [if_neg hmb] at h ⊢
    rcases hls : Pyrad.metaMaskLookup metadata with u | mask_v
    · rw [hls] at h
      simp at h
    · rw [hls] at h
      (try dsimp only at h); (try dsimp only)
      cases htr : pythonTruthy (mask_v.getD .null) with
      | false =>
        rw [htr] at h
        simp at h
      | true =>
        rw [htr] at h
        (try dsimp only at h); (try dsimp only)
        cases hstr : mask_v.getD .null with
        | str s =>
          rw [hstr] at h
          (try dsimp only at h); (try dsimp only)
          cases hex : (w.stat s).fsExists with
          | false =>
            rw [hex] at h
            simp at h
          | true =>
            rw [hex] at h
            (try dsimp only at h); (try dsimp only)
            exact py_mwm_exit0 w i (Pyrad.sniffMask w s).1 (Pyrad.sniffMask w s).2
              params metadata fcl bw nz nsc h
        | null => rw [hstr] at h; simp at h
        | bool b => rw [hstr] at h; simp at h
        | num q => rw [hstr] at h; simp at h
        | arr xs => rw [hstr] at h; simp at h
        | obj fs => rw [hstr] at h; simp at h

/-- A pyradiomics invocation that exits 0 parsed both JSON inputs and
printed the success envelope built from the parsed parameters and
metadata; in particular it leaks no temporary file. -/
theorem py_exit0_shape (w : PyWorld) (h : (Pyrad.main w).exitCode = 0) :
    ∃ params metadata fr image mask_image bw nz nsc fcl,
      load_json_file w.parse (w.argv.getD 3 "") "parameters file" = .ok params ∧
      load_json_file w.parse (w.argv.getD 2 "") "metadata file" = .ok metadata ∧
      Pyrad.main w =
        ⟨0, Pyrad.successEnv fr image mask_image bw nz nsc fcl metadata params, []⟩ := by
  simp only [Pyrad.main, Pyrad.mainWithParams] at h
  by_cases hlen : w.argv.length < 4
  · rw [if_pos hlen] at h
    simp at h
  · rw [if_neg hlen] at h
    rcases hv1 : validate_file_exists w.stat (w.argv.getD 1 "") "Input file" with ⟨b1, s1⟩
    rw [hv1] at h
    cases b1
    · simp at h
    · dsimp only at h
      rcases hv2 : validate_file_exists w.stat (w.argv.getD 2 "") "Metadata file" with ⟨b2, s2⟩
      rw [hv2] at h
      cases b2
      · simp at h
      · dsimp only at h
        rcases hv3 : validate_file_exists w.stat (w.argv.getD 3 "") "Parameters file" with ⟨b3, s3⟩
        rw [hv3] at h
        cases b3
        · simp at h
        · dsimp only at h
          rcases hp : load_json_file w.parse (w.argv.getD 3 "") "parameters file" with ep | params
          · rw [hp] at h
            simp at h
          · rw [hp] at h
            dsimp only at h
            rcases hm : load_json_file w.parse (w.argv.getD 2 "") "metadata file" with em | metadata
            · rw [hm] at h
              simp at h
            · rw [hm] at h
              dsimp only at h
              cases params with
              | obj fields =>
                dsimp only at h
                cases hfcs : (jLookup fields "feature_classes").getD
                    (.str "firstorder,shape,glcm,glrlm,glszm,gldm,ngtdm") with
                | str fcs =>
                  rw [hfcs] at h
                  dsimp only at h
                  obtain ⟨fr, image, mask_image, heq⟩ := py_resolve_exit0 w
                    (w.argv.getD 1 "") (.obj fields) metadata
                    ((jLookup fields "mask_base64").getD .null)
                    ((fcs.splitOn ",").map (fun fc => fc.trim))
                    ((jLookup fields "bin_width").getD (.num 25))
                    ((jLookup fields "normalize").getD (.bool false))
                    ((jLookup fields "normalize_scale").getD (.num 100)) h
                  refine ⟨.obj fields, metadata, fr, image, mask_image,
                    (jLookup fields "bin_width").getD (.num 25),
                    (jLookup fields "normalize").getD (.bool false),
                    (jLookup fields "normalize_scale").getD (.num 100),
                    (fcs.splitOn ",").map (fun fc => fc.trim),
                    rfl, rfl, ?_⟩
                  simp only [Pyrad.main, Pyrad.mainWithParams]
                  rw [if_neg hlen, hv1]
                  dsimp only
                  rw [hv2]
                  dsimp only
                  rw [hv3]
                  dsimp only
                  rw [hp]
                  dsimp only
                  rw [hm]
                  dsimp only
                  rw [hfcs]
                  dsimp only
                  exact heq
                | null => rw [hfcs] at h; simp at h
                | bool b => rw [hfcs] at h; simp at h
                | num q => rw [hfcs] at h; simp at h
                | arr xs => rw [hfcs] at h; simp at h
                | obj fs => rw [hfcs] at h; simp at h
              | null => simp at h
              | bool b => simp at h
              | num q => simp at h
              | str s => simp at h
              | arr xs => simp at h

/-! ## Claim C3: temporary decoded-mask file cleanup -/

/-- C3 counterexample: with an inline base64 mask and a failing feature
extraction, the script exits 1 and the decoded temporary mask file still
exists at process exit — cleanup (pyradiomics lines 356-361) runs only on
the success path, and the file was created with `delete=False`. -/
theorem C3_counterexample :
    pyW3.parse "params.json" = .ok (.obj [("mask_base64", .str "QUJD")]) ∧
    (Pyrad.main pyW3).exitCode = 1 ∧
    (Pyrad.main pyW3).leaked = [pyW3.tmpName] ∧
    (Pyrad.main pyW3).stdout.getKey "message" =
      some (.str "Error extracting radiomic features: boom") := by
  exact ⟨rfl, rfl, rfl, rfl⟩

/-- C3 (amended): the decoded-mask temporary file is removed on the
success path — every invocation that exits 0 leaks nothing — but on an
error exit after its creation (here: feature extraction failing) the file
persists at process exit. -/
theorem C3_temp_cleanup :
    (∀ w : PyWorld, (Pyrad.main w).exitCode = 0 → (Pyrad.main w).leaked = []) ∧
    (∀ (w : PyWorld) i mp temp params metadata fcl bw nz nsc s1 image mask_image e,
      validate_file_exists w.stat mp "Mask file" = (true, s1) →
      Pyrad.read_image_file w.stat w.readImg i = .ok image →
      Pyrad.read_image_file w.stat w.readImg mp = .ok mask_image →
      image.size = mask_image.size →
      w.extractF i mp ⟨bw, nz, if pythonTruthy nz then nsc else .null,
        Pyrad.buildEnable fcl⟩ = .error e →
      Pyrad.mainWithMask w i mp temp params metadata fcl bw nz nsc =
        ⟨1, errEnv ("Error extracting radiomic features: " ++ e), temp.toList⟩) := by
  constructor
  · intro w h
    obtain ⟨params, metadata, fr, image, mask_image, bw, nz, nsc, fcl, _, _, heq⟩ :=
      py_exit0_shape w h
    rw [heq]
  · intro w i mp temp params metadata fcl bw nz nsc s1 image mask_image e
      hv hrd1 hrd2 hsz hex
    simp only [Pyrad.mainWithMask]
    rw [hv]
    dsimp only
    rw [hrd1]
    dsimp only
    rw [hrd2]
    dsimp only
    rw [if_neg (not_not_intro hsz), hex]

/-- C3 witness: the amended theorem at concrete runs — the successful
invocation leaks nothing, and the failing-extraction tail leaves the
temporary file behind. -/
theorem C3_witness :
    (Pyrad.main pyW6).leaked = [] ∧
    Pyrad.mainWithMask pyW3 "in.nii" "/tmp/tmpabc.nii.gz" (some "/tmp/tmpabc.nii.gz")
        (.obj []) (.obj []) [] (.num 25) (.bool false) (.num 100) =
      ⟨1, errEnv ("Error extracting radiomic features: " ++ "boom"),
        ["/tmp/tmpabc.nii.gz"]⟩ := by
  constructor
  · exact C3_temp_cleanup.1 pyW6 (by rfl)
  · exact C3_temp_cleanup.2 pyW3 "in.nii" "/tmp/tmpabc.nii.gz"
      (some "/tmp/tmpabc.nii.gz") (.obj []) (.obj []) [] (.num 25) (.bool false)
      (.num 100) none img3 img3 "boom" (by rfl) (by rfl) (by rfl) (by rfl) (by rfl)

/-! ## Claim C4: the 50 MB mask-size ceiling -/

/-- Exact length of the base64 text for `n` raw bytes. -/
def b64Len (n : Nat) : Nat := 4 * ((n + 2) / 3)

/-- C4 counterexample: a successful run whose mask (40 MiB raw, so the
`1.4 *` estimate exceeds the 50 MB ceiling) still carries the
`mask_base64` KEY in the printed JSON object — with value `null`, because
`json.dumps` serializes Python `None` — rather than omitting the field as
the claim states; the warning goes to stderr. -/
theorem C4_counterexample :
    lungW4.writeMask img3 = .ok 41943040 ∧
    ¬(7 * 41943040 < 5 * Lungmask.maxSizeBytes) ∧
    (Lungmask.main lungW4).exitCode = 0 ∧
    jGet2 (Lungmask.main lungW4).stdout "data" "mask_base64" = some Json.null ∧
    (Lungmask.main lungW4).stderr = ["Warning: Mask too large for base64 encoding"] := by
  exact ⟨rfl, by decide, rfl, rfl, rfl⟩

/-- C4 (amended): the mask is inlined only when the script's estimate
`1.4 * raw size` is under the 50 MB ceiling — in which case the true
post-encoding size is under the ceiling too; when the estimate reaches the
ceiling, the `mask_base64` field is present with value `null` (not
omitted) and the warning is emitted on the error stream, while standard
output carries only the single success envelope. -/
theorem C4_size_ceiling :
    (∀ (w : LungWorld) mask n, w.writeMask mask = .ok n →
        7 * n < 5 * Lungmask.maxSizeBytes →
        Lungmask.encodeBlock w mask = ⟨some (w.encode mask), n, []⟩ ∧
        b64Len n < Lungmask.maxSizeBytes) ∧
    (∀ (w : LungWorld) mask n, w.writeMask mask = .ok n →
        ¬(7 * n < 5 * Lungmask.maxSizeBytes) →
        Lungmask.encodeBlock w mask =
          ⟨none, n, ["Warning: Mask too large for base64 encoding"]⟩) ∧
    (∀ w : LungWorld, (Lungmask.main w).exitCode = 0 → ∃ mask,
        jGet2 (Lungmask.main w).stdout "data" "mask_base64" =
          some (optStrJson (Lungmask.encodeBlock w mask).maskB64) ∧
        (Lungmask.main w).stderr = (Lungmask.encodeBlock w mask).warnings) := by
  refine ⟨?_, ?_, ?_⟩
  · intro w mask n hw hlt
    constructor
    · simp only [Lungmask.encodeBlock]
      rw [hw]
      dsimp only
      rw [if_pos hlt]
    · have hn : 7 * n < 262144000 := by
        simpa [Lungmask.maxSizeBytes] using hlt
      simp only [b64Len, Lungmask.maxSizeBytes]
      omega
  · intro w mask n hw hge
    simp only [Lungmask.encodeBlock]
    rw [hw]
    dsimp only
    rw [if_neg hge]
  · intro w h
    obtain ⟨mn, fc, image, mask, stats, metadata, params, _, _, _, heq⟩ :=
      lung_exit0_shape w h
    refine ⟨mask, ?_, ?_⟩
    · rw [heq]
      rfl
    · rw [heq]

/-- C4 witness: at a small mask the theorem yields the inline field and an
encoded size strictly under the ceiling; `lungW0` exits 0 and its envelope
carries the inline string. -/
theorem C4_witness :
    Lungmask.encodeBlock lungW0 img3 = ⟨some (lungW0.encode img3), 1000, []⟩ ∧
    b64Len 1000 < Lungmask.maxSizeBytes ∧
    (∃ mask, jGet2 (Lungmask.main lungW0).stdout "data" "mask_base64" =
        some (optStrJson (Lungmask.encodeBlock lungW0 mask).maskB64) ∧
      (Lungmask.main lungW0).stderr = (Lungmask.encodeBlock lungW0 mask).warnings) := by
  refine ⟨?_, ?_, ?_⟩
  · exact (C4_size_ceiling.1 lungW0 img3 1000 (by rfl) (by decide)).1
  · exact (C4_size_ceiling.1 lungW0 img3 1000 (by rfl) (by decide)).2
  · exact C4_size_ceiling.2.2 lungW0 (by rfl)

/-! ## Claim C10: parameters_applied echo and unrecognized keys -/

/-- Appending a binding for a fresh key does not change other lookups. -/
theorem jLookup_append (fields : List (String × Json)) (k key : String) (v : Json)
    (hk : ¬(k = key)) : jLookup (fields ++ [(k, v)]) key = jLookup fields key := by
  induction fields with
  | nil => simp [jLookup, hk]
  | cons a rest ih =>
      obtain ⟨ak, av⟩ := a
      simp only [List.cons_append, jLookup, List.append_eq]
      rw [ih]

/-- Forget the `parameters_applied` echo of a lungmask outcome. -/
def eraseLungParams (o : LungOutcome) : LungOutcome :=
  { o with stdout := o.stdout.removeKey "parameters_applied" }

/-- Forget the `parameters_applied` echo of a pyradiomics outcome. -/
def erasePyParams (o : PyOutcome) : PyOutcome :=
  { o with stdout := o.stdout.removeKey "parameters_applied" }

/-- The segmentation tail of the lungmask script uses the raw params value
only as the envelope echo. -/
theorem erase_lung_mainSeg (w : LungWorld) (i m : String) (p q : Json)
    (mn : String) (fc : Bool) :
    eraseLungParams (Lungmask.mainSeg w i m p mn fc) =
    eraseLungParams (Lungmask.mainSeg w i m q mn fc) := by
  simp only [Lungmask.mainSeg]
  cases hread : Lungmask.read_image_file w.stat w.readImg i with
  | error e => rfl
  | ok image =>
    dsimp only
    cases happ : (Lungmask.apply_lungmask w image mn fc).result with
    | error e => rfl
    | ok mask => rfl

/-- The tail of the pyradiomics script after mask resolution uses the raw
params value only as the envelope echo. -/
theorem erase_py_mwm (w : PyWorld) (i mp : String) (temp : Option String)
    (p q metadata : Json) (fcl : List String) (bw nz nsc : Json) :
    erasePyParams (Pyrad.mainWithMask w i mp temp p metadata fcl bw nz nsc) =
    erasePyParams (Pyrad.mainWithMask w i mp temp q metadata fcl bw nz nsc) := by
  simp only [Pyrad.mainWithMask]
  cases hv : validate_file_exists w.stat mp "Mask file" with
  | mk b1 s1 =>
    cases b1
    · rfl
    · dsimp only
      cases hrd1 : Pyrad.read_image_file w.stat w.readImg i with
      | error e => rfl
      | ok image =>
        dsimp only
        cases hrd2 : Pyrad.read_image_file w.stat w.readImg mp with
        | error e => rfl
        | ok mask_image =>
          dsimp only
          by_cases hsz : image.size = mask_image.size
          · rw [if_neg (not_not_intro hsz)]
            try rw [if_neg (not_not_intro hsz)]
            cases hex : w.extractF i mp
                ⟨bw, nz, if pythonTruthy nz then nsc else .null, Pyrad.buildEnable fcl⟩ with
            | error e => rfl
            | ok fr => rfl
          · rw [if_pos hsz]
            try rw [if_pos hsz]

/-- Mask resolution uses the raw params value only as the envelope echo. -/
theorem erase_py_resolve (w : PyWorld) (i : String) (p q metadata mb : Json)
    (fcl : List String) (bw nz nsc : Json) :
    erasePyParams (Pyrad.resolveMask w i p metadata mb fcl bw nz nsc) =
    erasePyParams (Pyrad.resolveMask w i q metadata mb fcl bw nz nsc) := by
  simp only [Pyrad.resolveMask]
  by_cases hmb : Pyrad.maskB64Provided mb = true
  · rw [if_pos hmb]
    try rw [if_pos hmb]
    cases hdec : Pyrad.decode_mask_from_base64 w mb with
    | error e => rfl
    | ok tmp =>
        (try dsimp only)
        exact erase_py_mwm w i tmp (some tmp) p q metadata fcl bw nz nsc
  · rw [if_neg hmb]
    try rw [if_neg hmb]
    cases hls : Pyrad.metaMaskLookup metadata with
    | error u => rfl
    | ok mask_v =>
      (try dsimp only)
      cases htr : pythonTruthy (mask_v.getD .null)
      · rfl
      · (try dsimp only)
        cases hstr : mask_v.getD .null with
        | str sp =>
          (try dsimp only)
          cases hex : (w.stat sp).fsExists
          · rfl
          · (try dsimp only)
            exact erase_py_mwm w i (Pyrad.sniffMask w sp).1 (Pyrad.sniffMask w sp).2
              p q metadata fcl bw nz nsc
        | null => rfl
        | bool b => rfl
        | num nq => rfl
        | arr xs => rfl
        | obj fs => rfl

def pyRecognizedKeys : List String :=
  ["mask_base64", "feature_classes", "bin_width", "normalize", "normalize_scale"]

/-- C10: for every successful invocation of either script the
`parameters_applied` field of the printed envelope is exactly the parsed
content of the parameters file; and a parameter key the method does not
recognize never influences the outcome — the run with the extra key is the
run without it, except for the echo itself. -/
theorem C10_parameters_applied :
    (∀ (w : LungWorld) params,
        load_json_file w.parse (w.argv.getD 3 "") "parameters file" = .ok params →
        (Lungmask.main w).exitCode = 0 →
        (Lungmask.main w).stdout.getKey "parameters_applied" = some params) ∧
    (∀ (w : PyWorld) params,
        load_json_file w.parse (w.argv.getD 3 "") "parameters file" = .ok params →
        (Pyrad.main w).exitCode = 0 →
        (Pyrad.main w).stdout.getKey "parameters_applied" = some params) ∧
    (∀ (w : LungWorld) i m fields k v, ¬(k = "model") → ¬(k = "force_cpu") →
        eraseLungParams (Lungmask.mainWithParams w i m (.obj (fields ++ [(k, v)]))) =
        eraseLungParams (Lungmask.mainWithParams w i m (.obj fields))) ∧
    (∀ (w : PyWorld) i fields metadata k v, ¬(k ∈ pyRecognizedKeys) →
        erasePyParams (Pyrad.mainWithParams w i (.obj (fields ++ [(k, v)])) metadata) =
        erasePyParams (Pyrad.mainWithParams w i (.obj fields) metadata)) := by
  refine ⟨?_, ?_, ?_, ?_⟩
  · intro w params hp h
    obtain ⟨mn, fc, image, mask, stats, metadata, params2, hp2, _, _, heq⟩ :=
      lung_exit0_shape w h
    have : params2 = params := by
      have := hp2.symm.trans hp
      exact (Except.ok.inj this)
    subst this
    rw [heq]
    rfl
  · intro w params hp h
    obtain ⟨params2, metadata, fr, image, mask_image, bw, nz, nsc, fcl, hp2, _, heq⟩ :=
      py_exit0_shape w h
    have : params2 = params := by
      have := hp2.symm.trans hp
      exact (Except.ok.inj this)
    subst this
    rw [heq]
    rfl
  · intro w i m fields k v hk1 hk2
    simp only [Lungmask.mainWithParams]
    rw [jLookup_append fields k "model" v hk1,
        jLookup_append fields k "force_cpu" v hk2]
    cases hmv : (jLookup fields "model").getD (.str "R231") with
    | str mn =>
      cases hfc : Lungmask.coerceForceCpu ((jLookup fields "force_cpu").getD (.bool false)) with
      | error msg => rfl
      | ok fc => exact erase_lung_mainSeg w i m (.obj (fields ++ [(k, v)])) (.obj fields) mn fc
    | null => rfl
    | bool b => rfl
    | num nq => rfl
    | arr xs => rfl
    | obj fs => rfl
  · intro w i fields metadata k v hk
    have hk1 : ¬(k = "mask_base64") := fun h => hk (by rw [h]; simp [pyRecognizedKeys])
    have hk2 : ¬(k = "feature_classes") := fun h => hk (by rw [h]; simp [pyRecognizedKeys])
    have hk3 : ¬(k = "bin_width") := fun h => hk (by rw [h]; simp [pyRecognizedKeys])
    have hk4 : ¬(k = "normalize") := fun h => hk (by rw [h]; simp [pyRecognizedKeys])
    have hk5 : ¬(k = "normalize_scale") := fun h => hk (by rw [h]; simp [pyRecognizedKeys])
    simp only [Pyrad.mainWithParams]
    rw [jLookup_append fields k "mask_base64" v hk1,
        jLookup_append fields k "feature_classes" v hk2,
        jLookup_append fields k "bin_width" v hk3,
        jLookup_append fields k "normalize" v hk4,
        jLookup_append fields k "normalize_scale" v hk5]
    cases hfcs : (jLookup fields "feature_classes").getD
        (.str "firstorder,shape,glcm,glrlm,glszm,gldm,ngtdm") with
    | str fcs =>
      exact erase_py_resolve w i (.obj (fields ++ [(k, v)])) (.obj fields) metadata
        ((jLookup fields "mask_base64").getD .null)
        ((fcs.splitOn ",").map (fun fc => fc.trim))
        ((jLookup fields "bin_width").getD (.num 25))
        ((jLookup fields "normalize").getD (.bool false))
        ((jLookup fields "normalize_scale").getD (.num 100))
    | null => rfl
    | bool b => rfl
    | num nq => rfl
    | arr xs => rfl
    | obj fs => rfl

/-- C10 witness: at the concrete successful runs the envelope echoes the
parsed parameters file, and adding an unrecognized key changes nothing but
the echo. -/
theorem C10_witness :
    (Lungmask.main lungW0).stdout.getKey "parameters_applied" = some (.obj []) ∧
    (Pyrad.main pyW6).stdout.getKey "parameters_applied" =
      some (.obj [("mask_base64", .str "QUJD"), ("normalize", .num 5)]) ∧
    eraseLungParams (Lungmask.mainWithParams lungW0 "in.nii" "meta.json"
        (.obj [("unrecognized_option", .num 7)])) =
      eraseLungParams (Lungmask.mainWithParams lungW0 "in.nii" "meta.json" (.obj [])) := by
  refine ⟨?_, ?_, ?_⟩
  · exact C10_parameters_applied.1 lungW0 (.obj []) (by rfl) (by rfl)
  · exact C10_parameters_applied.2.1 pyW6
      (.obj [("mask_base64", .str "QUJD"), ("normalize", .num 5)]) (by rfl) (by rfl)
  · exact C10_parameters_applied.2.2.1 lungW0 "in.nii" "meta.json" []
      "unrecognized_option" (.num 7) (by decide) (by decide)

/-! ## Claim C1: metadata vs parameters parse-failure fatality -/

/-- C1 counterexample: in the feature-extraction script, a valid
parameters file together with a malformed metadata file is FATAL — the
process exits 1 with the metadata parse diagnostic, so the metadata parse
failure is not non-fatal in both scripts as claimed. -/
theorem C1_counterexample :
    pyW1.parse "params.json" = .ok (.obj []) ∧
    pyW1.parse "meta.json" =
      .error (.decodeErr "Expecting value: line 1 column 1 (char 0)") ∧
    (Pyrad.main pyW1).exitCode = 1 ∧
    (Pyrad.main pyW1).stdout.getKey "message" =
      some (.str "Invalid JSON in metadata file: Expecting value: line 1 column 1 (char 0)") := by
  exact ⟨rfl, rfl, rfl, rfl⟩

/-- C1 (amended): in the segmentation script a metadata parse failure is
non-fatal — the empty mapping is substituted and an otherwise-successful
invocation still exits 0 with the success envelope; in the
feature-extraction script a metadata parse failure is fatal, exit 1 with
the loader's message, exactly like a parameters parse failure, which is
fatal in both scripts; and for malformed JSON the loader's message
carries the parser diagnostic. -/
theorem C1_metadata_fatality :
    (∀ (w : LungWorld) s1 s2 s3 fields mn fc image mask stats emsg,
      ¬(w.argv.length < 4) →
      validate_file_exists w.stat (w.argv.getD 1 "") "Input file" = (true, s1) →
      validate_file_exists w.stat (w.argv.getD 2 "") "Metadata file" = (true, s2) →
      validate_file_exists w.stat (w.argv.getD 3 "") "Parameters file" = (true, s3) →
      load_json_file w.parse (w.argv.getD 3 "") "parameters file" = .ok (.obj fields) →
      (jLookup fields "model").getD (.str "R231") = .str mn →
      Lungmask.coerceForceCpu ((jLookup fields "force_cpu").getD (.bool false)) = .ok fc →
      Lungmask.read_image_file w.stat w.readImg (w.argv.getD 1 "") = .ok image →
      (Lungmask.apply_lungmask w image mn fc).result = .ok mask →
      w.statsOf mask = .ok stats →
      load_json_file w.parse (w.argv.getD 2 "") "metadata file" = .error emsg →
      Lungmask.main w =
        ⟨0, Lungmask.successEnv mn fc (w.argv.getD 1 "") image mask stats
            (.obj []) (.obj fields) (Lungmask.encodeBlock w mask).maskB64
            (Lungmask.encodeBlock w mask).sizeBytes,
          (Lungmask.encodeBlock w mask).warnings,
          (Lungmask.apply_lungmask w image mn fc).envAfter⟩) ∧
    (∀ (w : PyWorld) s1 s2 s3 pj emsg,
      ¬(w.argv.length < 4) →
      validate_file_exists w.stat (w.argv.getD 1 "") "Input file" = (true, s1) →
      validate_file_exists w.stat (w.argv.getD 2 "") "Metadata file" = (true, s2) →
      validate_file_exists w.stat (w.argv.getD 3 "") "Parameters file" = (true, s3) →
      load_json_file w.parse (w.argv.getD 3 "") "parameters file" = .ok pj →
      load_json_file w.parse (w.argv.getD 2 "") "metadata file" = .error emsg →
      Pyrad.main w = ⟨1, errEnv emsg, []⟩) ∧
    (∀ (w : LungWorld) s1 s2 s3 emsg,
      ¬(w.argv.length < 4) →
      validate_file_exists w.stat (w.argv.getD 1 "") "Input file" = (true, s1) →
      validate_file_exists w.stat (w.argv.getD 2 "") "Metadata file" = (true, s2) →
      validate_file_exists w.stat (w.argv.getD 3 "") "Parameters file" = (true, s3) →
      load_json_file w.parse (w.argv.getD 3 "") "parameters file" = .error emsg →
      Lungmask.main w = ⟨1, errEnv emsg, [], w.cudaEnv⟩) ∧
    (∀ (w : PyWorld) s1 s2 s3 emsg,
      ¬(w.argv.length < 4) →
      validate_file_exists w.stat (w.argv.getD 1 "") "Input file" = (true, s1) →
      validate_file_exists w.stat (w.argv.getD 2 "") "Metadata file" = (true, s2) →
      validate_file_exists w.stat (w.argv.getD 3 "") "Parameters file" = (true, s3) →
      load_json_file w.parse (w.argv.getD 3 "") "parameters file" = .error emsg →
      Pyrad.main w = ⟨1, errEnv emsg, []⟩) ∧
    (∀ (parse : String → Except JsonLoadErr Json) path desc e,
      parse path = .error (.decodeErr e) →
      load_json_file parse path desc =
        .error ("Invalid JSON in " ++ desc ++ ": " ++ e)) := by
  refine ⟨?_, ?_, ?_, ?_, ?_⟩
  · intro w s1 s2 s3 fields mn fc image mask stats emsg hlen hv1 hv2 hv3 hp hmv
      hfc hread happ hstats hmeta
    simp only [Lungmask.main, Lungmask.mainWithParams, Lungmask.mainSeg]
    rw [if_neg hlen, hv1]
    dsimp only
    rw [hv2]
    dsimp only
    rw [hv3]
    dsimp only
    rw [hp]
    dsimp only
    rw [hmv]
    dsimp only
    rw [hfc]
    dsimp only
    rw [hread]
    dsimp only
    rw [happ]
    dsimp only
    rw [hstats, hmeta]
  · intro w s1 s2 s3 pj emsg hlen hv1 hv2 hv3 hp hmeta
    simp only [Pyrad.main]
    rw [if_neg hlen, hv1]
    dsimp only
    rw [hv2]
    dsimp only
    rw [hv3]
    dsimp only
    rw [hp]
    dsimp only
    rw [hmeta]
  · intro w s1 s2 s3 emsg hlen hv1 hv2 hv3 hpe
    simp only [Lungmask.main]
    rw [if_neg hlen, hv1]
    dsimp only
    rw [hv2]
    dsimp only
    rw [hv3]
    dsimp only
    rw [hpe]
  · intro w s1 s2 s3 emsg hlen hv1 hv2 hv3 hpe
    simp only [Pyrad.main]
    rw [if_neg hlen, hv1]
    dsimp only
    rw [hv2]
    dsimp only
    rw [hv3]
    dsimp only
    rw [hpe]
  · intro parse path desc e h
    simp only [load_json_file]
    rw [h]

/-- C1 witness: the segmentation run `lungW0` — valid parameters, malformed
metadata — exits 0 with the empty mapping as `original_metadata`, while the
feature-extraction run `pyW1` with the same shape of inputs is fatal. -/
theorem C1_witness :
    Lungmask.main lungW0 =
      ⟨0, Lungmask.successEnv "R231" false "in.nii" img3 img3 (.obj []) (.obj [])
          (.obj []) (Lungmask.encodeBlock lungW0 img3).maskB64
          (Lungmask.encodeBlock lungW0 img3).sizeBytes,
        (Lungmask.encodeBlock lungW0 img3).warnings,
        (Lungmask.apply_lungmask lungW0 img3 "R231" false).envAfter⟩ ∧
    Pyrad.main pyW1 =
      ⟨1, errEnv ("Invalid JSON in metadata file: " ++
        "Expecting value: line 1 column 1 (char 0)"), []⟩ ∧
    load_json_file pyW1.parse "meta.json" "metadata file" =
      .error ("Invalid JSON in " ++ "metadata file" ++ ": " ++
        "Expecting value: line 1 column 1 (char 0)") := by
  refine ⟨?_, ?_, ?_⟩
  · exact C1_metadata_fatality.1 lungW0 none none none [] "R231" false img3 img3
      (.obj []) "Invalid JSON in metadata file: Expecting value: line 1 column 1 (char 0)"
      (by decide) (by rfl) (by rfl) (by rfl) (by rfl) (by rfl) (by rfl) (by rfl)
      (by rfl) (by rfl) (by rfl)
  · exact C1_metadata_fatality.2.1 pyW1 none none none (.obj [])
      ("Invalid JSON in metadata file: " ++ "Expecting value: line 1 column 1 (char 0)")
      (by decide) (by rfl) (by rfl) (by rfl) (by rfl) (by rfl)
  · exact C1_metadata_fatality.2.2.2.2 pyW1.parse "meta.json" "metadata file"
      "Expecting value: line 1 column 1 (char 0)" (by rfl)

end DsImaging
